import Mathlib

/-!
Verification development for the registry-synchronization core of
`oh-my-antigravity` (`src/cli.ts`, `update` command path).

The TypeScript source is shallowly embedded as executable Lean functions:

* `calculateSHA256` models `createHash("sha256").update(content, "utf-8").digest("hex")`
  (a full executable SHA-256 over the UTF-8 bytes of the content string,
  producing lowercase hex).
* `textDecode` models `await res.text()`: WHATWG UTF-8 decoding of the raw
  body bytes with U+FFFD replacement and BOM removal.
* `getLocalVersion` / `saveLocalVersion` model `_version.json` handling; the
  state of the marker file for the target directory is made explicit as a
  `MarkerState` value (absent / unreadable / invalid JSON / parsed object).
* `downloadFile` models the per-file transfer unit: fetch, `res.ok` check,
  SHA-256 comparison, write to `join(cwd, path)`.
* `update` models the `update()` orchestration: manifest fetch, version
  short-circuit, the p-map transfer pass, and the unconditional
  `saveLocalVersion` after the pass.  The promise environment (network
  responses, marker state, filesystem) is passed explicitly; a rejected
  promise is an `Except.error` that propagates to the top-level `catch`
  (modelled as `UpdateStatus.failed`, the `process.exit(1)` path).

Filesystem writes are modelled as a map from path to the written text
content; the bytes on disk of a written file are `utf8Encode` of that text
(`writeFileSync(path, content, "utf-8")`).
-/

/-! ## SHA-256 (models node:crypto `createHash("sha256")`) -/

/-- Truncation to a 32-bit word. -/
def w32 (x : Nat) : Nat := x % 4294967296

/-- Right rotation of a 32-bit word by `n`. -/
def rotr32 (n x : Nat) : Nat := (x >>> n) + (x % 2 ^ n) * 2 ^ (32 - n)

/-- SHA-256 `Ch` function; `4294967295 - e` is bitwise NOT on 32 bits. -/
def shaCh (e f g : Nat) : Nat := (e &&& f) ^^^ ((4294967295 - e) &&& g)

/-- SHA-256 `Maj` function. -/
def shaMaj (a b c : Nat) : Nat := (a &&& b) ^^^ (a &&& c) ^^^ (b &&& c)

/-- SHA-256 big sigma 0. -/
def bsig0 (a : Nat) : Nat := rotr32 2 a ^^^ rotr32 13 a ^^^ rotr32 22 a

/-- SHA-256 big sigma 1. -/
def bsig1 (e : Nat) : Nat := rotr32 6 e ^^^ rotr32 11 e ^^^ rotr32 25 e

/-- SHA-256 small sigma 0. -/
def ssig0 (x : Nat) : Nat := rotr32 7 x ^^^ rotr32 18 x ^^^ (x >>> 3)

/-- SHA-256 small sigma 1. -/
def ssig1 (x : Nat) : Nat := rotr32 17 x ^^^ rotr32 19 x ^^^ (x >>> 10)

/-- The 64 SHA-256 round constants of FIPS 180-4 (decimal). -/
def K256 : List Nat :=
  [1116352408, 1899447441, 3049323471, 3921009573, 961987163, 1508970993,
   2453635748, 2870763221, 3624381080, 310598401, 607225278, 1426881987,
   1925078388, 2162078206, 2614888103, 3248222580, 3835390401, 4022224774,
   264347078, 604807628, 770255983, 1249150122, 1555081692, 1996064986,
   2554220882, 2821834349, 2952996808, 3210313671, 3336571891, 3584528711,
   113926993, 338241895, 666307205, 773529912, 1294757372, 1396182291,
   1695183700, 1986661051, 2177026350, 2456956037, 2730485921, 2820302411,
   3259730800, 3345764771, 3516065817, 3600352804, 4094571909, 275423344,
   430227734, 506948616, 659060556, 883997877, 958139571, 1322822218,
   1537002063, 1747873779, 1955562222, 2024104815, 2227730452, 2361852424,
   2428436474, 2756734187, 3204031479, 3329325298]

/-- The SHA-256 initial hash state of FIPS 180-4 (decimal). -/
def H256init : List Nat :=
  [1779033703, 3144134277, 1013904242, 2773480762,
   1359893119, 2600822924, 528734635, 1541459225]

/-- Big-endian 8-byte encoding of a natural number. -/
def beBytes8 (n : Nat) : List Nat :=
  [n >>> 56 % 256, n >>> 48 % 256, n >>> 40 % 256, n >>> 32 % 256,
   n >>> 24 % 256, n >>> 16 % 256, n >>> 8 % 256, n % 256]

/-- SHA-256 message padding: append `0x80`, zeros, and the 64-bit bit length. -/
def sha256pad (msg : List Nat) : List Nat :=
  let L := msg.length
  let zeros := (64 - (L + 9) % 64) % 64
  msg ++ [128] ++ List.replicate zeros 0 ++ beBytes8 (8 * L)

/-- Group bytes into big-endian 32-bit words. -/
def toWords : List Nat → List Nat
  | b0 :: b1 :: b2 :: b3 :: rest => (((b0 * 256 + b1) * 256 + b2) * 256 + b3) :: toWords rest
  | _ => []

/-- Split a byte list into 64-byte blocks; the count argument makes the
recursion structural (the padded message length is an exact multiple of 64). -/
def toBlocksAux : Nat → List Nat → List (List Nat)
  | 0, _ => []
  | n + 1, l => l.take 64 :: toBlocksAux n (l.drop 64)

/-- Split a padded message into its 64-byte blocks. -/
def toBlocks (l : List Nat) : List (List Nat) := toBlocksAux (l.length / 64) l

/-- One step of the SHA-256 message-schedule extension. -/
def scheduleStep (w : List Nat) : List Nat :=
  let t := w.length
  w ++ [w32 (ssig1 (w.getD (t - 2) 0) + w.getD (t - 7) 0 + ssig0 (w.getD (t - 15) 0) + w.getD (t - 16) 0)]

/-- Extend the 16 block words to the 64 schedule words. -/
def schedule64 (w : List Nat) : List Nat := Nat.repeat scheduleStep 48 w

/-- One SHA-256 compression round on the 8-word working state. -/
def compressStep (st : List Nat) (kw : Nat × Nat) : List Nat :=
  match st with
  | [a, b, c, d, e, f, g, h] =>
    let t1 := w32 (h + bsig1 e + shaCh e f g + kw.1 + kw.2)
    let t2 := w32 (bsig0 a + shaMaj a b c)
    [w32 (t1 + t2), a, b, c, w32 (d + t1), e, f, g]
  | s => s

/-- Compress one 64-byte block into the running hash state. -/
def compressBlock (hs : List Nat) (block : List Nat) : List Nat :=
  let ws := schedule64 (toWords block)
  let final := (K256.zip ws).foldl compressStep hs
  (hs.zip final).map (fun p => w32 (p.1 + p.2))

/-- SHA-256 of a byte sequence, as the 8 final 32-bit words. -/
def sha256Words (msg : List Nat) : List Nat :=
  (toBlocks (sha256pad msg)).foldl compressBlock H256init

/-- Lowercase hex digit for a value below 16 (as produced by `digest("hex")`). -/
def hexDigitChar (n : Nat) : Char :=
  if n < 10 then Char.ofNat (48 + n) else Char.ofNat (87 + n)

/-- The 8 lowercase hex characters of one 32-bit word, most significant first. -/
def wordHexChars (w : Nat) : List Char :=
  (List.range 8).map (fun i => hexDigitChar (w / 16 ^ (7 - i) % 16))

/-- SHA-256 of a byte sequence as a lowercase hex string (`digest("hex")`). -/
def sha256Hex (msg : List Nat) : String :=
  ⟨((sha256Words msg).map wordHexChars).flatten⟩

/-! ## UTF-8 encoding and decoding

`utf8Encode` models the `"utf-8"` encoding applied by
`hash.update(content, "utf-8")` and `writeFileSync(path, content, "utf-8")`.
`textDecode` models `await res.text()`: WHATWG UTF-8 decode of the response
body bytes, replacing invalid sequences with U+FFFD and removing a leading
byte-order mark. -/

/-- UTF-8 encoding of a single Unicode scalar value. -/
def utf8EncodeChar (c : Char) : List Nat :=
  let n := c.toNat
  if n < 128 then [n]
  else if n < 2048 then [192 + n / 64, 128 + n % 64]
  else if n < 65536 then [224 + n / 4096, 128 + n / 64 % 64, 128 + n % 64]
  else [240 + n / 262144, 128 + n / 4096 % 64, 128 + n / 64 % 64, 128 + n % 64]

/-- UTF-8 encoding of a string. -/
def utf8Encode (s : String) : List Nat := (s.data.map utf8EncodeChar).flatten

/-- Is the byte a UTF-8 continuation byte. -/
def isCont (c : Nat) : Bool := 128 ≤ c && c ≤ 191

/-- Valid first continuation byte after a 3-byte lead (excludes overlong
forms after `0xE0` and surrogates after `0xED`). -/
def contOk3 (b c : Nat) : Bool :=
  if b = 224 then 160 ≤ c && c ≤ 191
  else if b = 237 then 128 ≤ c && c ≤ 159
  else isCont c

/-- Valid first continuation byte after a 4-byte lead (excludes overlong
forms after `0xF0` and values above U+10FFFF after `0xF4`). -/
def contOk4 (b c : Nat) : Bool :=
  if b = 240 then 144 ≤ c && c ≤ 191
  else if b = 244 then 128 ≤ c && c ≤ 143
  else isCont c

/-- Decode one code point from lead byte `b` and the remaining bytes,
returning the code point (U+FFFD on error) and the bytes not yet consumed;
on an invalid continuation byte decoding restarts at the offending byte. -/
def decodeOne (b : Nat) (rest : List Nat) : Nat × List Nat :=
  if b < 128 then (b, rest)
  else if b < 194 then (65533, rest)
  else if b ≤ 223 then
    match rest with
    | [] => (65533, [])
    | c :: r2 => if isCont c then ((b - 192) * 64 + (c - 128), r2) else (65533, rest)
  else if b ≤ 239 then
    match rest with
    | [] => (65533, [])
    | c :: r2 =>
      if contOk3 b c then
        match r2 with
        | [] => (65533, [])
        | d :: r3 =>
          if isCont d then ((b - 224) * 4096 + (c - 128) * 64 + (d - 128), r3)
          else (65533, r2)
      else (65533, rest)
  else if b ≤ 244 then
    match rest with
    | [] => (65533, [])
    | c :: r2 =>
      if contOk4 b c then
        match r2 with
        | [] => (65533, [])
        | d :: r3 =>
          if isCont d then
            match r3 with
            | [] => (65533, [])
            | e :: r4 =>
              if isCont e then ((b - 240) * 262144 + (c - 128) * 4096 + (d - 128) * 64 + (e - 128), r4)
              else (65533, r3)
          else (65533, r2)
      else (65533, rest)
  else (65533, rest)

/-- Full UTF-8 decode with replacement; the fuel argument (instantiated with
the list length, which `decodeOne` never increases) makes the recursion
structural. -/
def utf8DecodeAux : Nat → List Nat → List Char
  | 0, _ => []
  | _ + 1, [] => []
  | fuel + 1, b :: rest =>
    let r := decodeOne b rest
    Char.ofNat r.1 :: utf8DecodeAux fuel r.2

/-- UTF-8 decode of a byte sequence with U+FFFD replacement. -/
def utf8DecodeBytes (l : List Nat) : List Char := utf8DecodeAux l.length l

/-- Remove a leading UTF-8 byte-order mark, as WHATWG `UTF-8 decode` does. -/
def stripBOM (l : List Nat) : List Nat :=
  if l.take 3 = [239, 187, 191] then l.drop 3 else l

/-- Model of `await res.text()`: the response body bytes decoded as UTF-8
with replacement, after BOM removal. -/
def textDecode (body : List Nat) : String := ⟨utf8DecodeBytes (stripBOM body)⟩

/-- Model of `calculateSHA256` (`src/cli.ts:97`): lowercase hex SHA-256 of
the UTF-8 bytes of the content string. -/
def calculateSHA256 (content : String) : String := sha256Hex (utf8Encode content)

/-! ## Data model (`src/cli.ts:110` and the marker file) -/

/-- Model of the `ManifestFile` interface (`src/cli.ts:110`). -/
structure ManifestFile where
  path : String
  sha256 : String
  size : Nat
deriving DecidableEq

/-- Model of the `Manifest` interface (`src/cli.ts:116`). -/
structure Manifest where
  name : String
  version : String
  releaseDate : String
  repository : String
  files : List ManifestFile
deriving DecidableEq

/-- A manifest file entry as it actually arrives on the wire: every field
may be absent, since `fetchRemoteManifest` casts the parsed JSON with
`as Manifest` and performs no shape validation. -/
structure RawFile where
  path : Option String
  sha256 : Option String
  size : Option Nat
deriving DecidableEq

/-- A manifest as it actually arrives on the wire (all fields optional). -/
structure RawManifest where
  name : Option String
  version : Option String
  releaseDate : Option String
  repository : Option String
  files : Option (List RawFile)
deriving DecidableEq

/-- State of the `_version.json` marker file of the target directory:
absent, unreadable (`readFileSync` throws), invalid JSON (`JSON.parse`
throws), or a parsed object whose `version` field may be absent. -/
inductive MarkerState where
  | absent
  | unreadable
  | invalidJson
  | parsed (version : Option String)
deriving DecidableEq

/-- Model of `getLocalVersion` (`src/cli.ts:124`): absence, read failure and
parse failure all yield `null`; `json.version || null` maps a falsy stored
version (the empty string) to `null` as well. -/
def getLocalVersion : MarkerState → Option String
  | .absent => none
  | .unreadable => none
  | .invalidJson => none
  | .parsed none => none
  | .parsed (some v) => if v = "" then none else some v

/-- Model of `saveLocalVersion` (`src/cli.ts:137`): after
`writeFileSync(versionFile, JSON.stringify({ version }))` the marker file
parses to an object whose `version` field holds the written string. -/
def saveLocalVersion (version : String) : MarkerState :=
  .parsed (some version)

/-! ## Network and filesystem environment -/

/-- Errors that reject a promise in the update path: a network-level fetch
rejection, the explicit `Error("Failed to fetch remote manifest")` on a
non-ok manifest response, and a `res.json()` rejection on an unparseable
manifest body. -/
inductive UpdateError where
  | networkFailure
  | manifestHttpError
  | manifestJsonError
deriving DecidableEq

/-- Whether an HTTP status makes `res.ok` true (fetch: 200–299). -/
def statusOk (s : Nat) : Bool := 200 ≤ s && s ≤ 299

/-- Outcome of the single `fetch` of the manifest URL: either the promise
rejects (network-level error) or a response arrives with a status and a
body that `res.json()` either parses (`some`) or rejects on (`none`). -/
inductive ManifestResponse (α : Type) where
  | reject
  | response (status : Nat) (body : Option α)

/-- Model of the body of `fetchRemoteManifest` (`src/cli.ts:148`): throw on
a non-ok status, otherwise return whatever `res.json()` produced, cast
unchecked (`as Manifest`).  The shape parameter `α` reflects that the cast
performs no validation; `RawManifest` instantiates it with arbitrary
JSON-object shapes. -/
def fetchManifestStep {α : Type} : ManifestResponse α → Except UpdateError α
  | .reject => .error .networkFailure
  | .response status body =>
    if !statusOk status then .error .manifestHttpError
    else match body with
      | none => .error .manifestJsonError
      | some m => .ok m

/-- Model of `fetchRemoteManifest` on an arbitrary JSON object body. -/
def fetchRemoteManifest : ManifestResponse RawManifest → Except UpdateError RawManifest :=
  fetchManifestStep

/-- Outcome of one `fetch` of a file URL: promise rejection or a response
with status and raw body bytes. -/
inductive FetchResult where
  | reject
  | response (status : Nat) (body : List Nat)
deriving DecidableEq

/-- The local filesystem, as text content by path (files are written with
`writeFileSync(path, content, "utf-8")`, so the bytes on disk are
`utf8Encode` of the stored string). -/
def FS : Type := String → Option String

/-- Write a file at a path. -/
def writeFile (fs : FS) (path : String) (content : String) : FS :=
  fun q => if q = path then some content else fs q

/-- Model of `join(a, b)` for the paths appearing in the update pass. -/
def joinPath (a b : String) : String := a ++ "/" ++ b

/-- The raw-content URL `downloadFile` fetches for a manifest file. -/
def fileUrl (mf : ManifestFile) : String :=
  "https://raw.githubusercontent.com/first-fluke/oh-my-antigravity/main/" ++ mf.path

/-- Model of the per-file result record of `downloadFile`
(`{ path, success, error? }`). -/
structure DownloadResult where
  path : String
  success : Bool
  error : Option String
deriving DecidableEq

/-- Model of `downloadFile` (`src/cli.ts:156`): a rejected fetch promise
propagates (there is no try/catch in `downloadFile`); a non-ok status is
an `HTTP <status>` failure outcome; the body text's SHA-256 is compared to
the declared hash by exact string equality, a mismatch is a
`SHA256 mismatch` failure outcome with no write, and a match writes the
body text to `join(cwd, path)` and reports success. -/
def downloadFile (cwd : String) (res : FetchResult) (mf : ManifestFile) (fs : FS) :
    Except UpdateError (DownloadResult × FS) :=
  match res with
  | .reject => .error .networkFailure
  | .response status body =>
    if !statusOk status then
      .ok ({ path := mf.path, success := false, error := some ("HTTP " ++ toString status) }, fs)
    else
      let content := textDecode body
      let actualSHA256 := calculateSHA256 content
      if actualSHA256 ≠ mf.sha256 then
        .ok ({ path := mf.path, success := false, error := some "SHA256 mismatch" }, fs)
      else
        .ok ({ path := mf.path, success := true, error := none },
          writeFile fs (joinPath cwd mf.path) content)

/-- Model of `pMap(remoteManifest.files, downloadFile, ...)`: every file
gets exactly one transfer unit; if any unit's promise rejects the whole
`pMap` rejects.  The filesystem is threaded in manifest order (each unit
owns a disjoint target path, so order does not affect the outcomes; no
theorem below relies on the filesystem state of a rejected pass). -/
def runUnits (cwd : String) (fileRes : String → FetchResult) :
    List ManifestFile → FS → Except UpdateError (List DownloadResult) × FS
  | [], fs => (.ok [], fs)
  | mf :: rest, fs =>
    match downloadFile cwd (fileRes (fileUrl mf)) mf fs with
    | .error e => (.error e, fs)
    | .ok (r, fs') =>
      match runUnits cwd fileRes rest fs' with
      | (.error e, fs'') => (.error e, fs'')
      | (.ok rs, fs'') => (.ok (r :: rs), fs'')

/-- How one invocation of `update()` ended: the up-to-date short-circuit,
a completed transfer pass, or the top-level `catch` / `process.exit(1)`
path after a rejected promise. -/
inductive UpdateStatus where
  | upToDate
  | completed
  | failed
deriving DecidableEq

/-- Final state of one `update()` invocation: status, the `results` list
of the transfer pass (empty when the pass never ran), the marker file
state and the filesystem. -/
structure UpdateResult where
  status : UpdateStatus
  outcomes : List DownloadResult
  marker : MarkerState
  fs : FS

/-- The environment one `update()` invocation runs against: the manifest
endpoint's response, each file URL's response, and the initial marker and
filesystem state. -/
structure UpdateEnv where
  manifestRes : ManifestResponse Manifest
  fileRes : String → FetchResult
  marker : MarkerState
  fs : FS

/-- The `localVersion === remoteManifest.version` comparison of
`src/cli.ts:195`: JavaScript strict equality between a string-or-null and a
string, so `null` compares unequal to every string. -/
def versionEq : Option String → String → Bool
  | some s, v => s == v
  | none, _ => false

/-- Model of `update` (`src/cli.ts:182`): fetch the manifest (any rejection
is caught and exits), read the local version, short-circuit when it equals
the manifest version under `===` (`null` never equals a string), otherwise
run all transfer units and then `saveLocalVersion` unconditionally.  The
manifest response is typed by the `Manifest` interface, exactly as the
unchecked `as Manifest` cast assumes. -/
def update (cwd : String) (env : UpdateEnv) : UpdateResult :=
  match fetchManifestStep env.manifestRes with
  | .error _ => { status := .failed, outcomes := [], marker := env.marker, fs := env.fs }
  | .ok m =>
    let localVersion := getLocalVersion env.marker
    if versionEq localVersion m.version then
      { status := .upToDate, outcomes := [], marker := env.marker, fs := env.fs }
    else
      match runUnits cwd env.fileRes m.files env.fs with
      | (.error _, fs') => { status := .failed, outcomes := [], marker := env.marker, fs := fs' }
      | (.ok rs, fs') =>
        { status := .completed, outcomes := rs, marker := saveLocalVersion m.version, fs := fs' }

/-! ## Spec-side definitions for the verification contract (§4.3)

`verifySpec` is modelled from the spec's words — "`verify(bytes,
expectedHex)` is a pure comparison of `digest(bytes)` against
`expectedHex`, case-insensitive on hex but otherwise exact" — to be
compared against the comparison the code performs. -/

/-- ASCII lowercasing of one character. -/
def asciiToLower (c : Char) : Char :=
  if 65 ≤ c.toNat ∧ c.toNat ≤ 90 then Char.ofNat (c.toNat + 32) else c

/-- Case-insensitive string comparison (ASCII case folding). -/
def hexEqCaseInsensitive (a b : String) : Bool :=
  a.data.map asciiToLower == b.data.map asciiToLower

/-- Spec-side `verify`: case-insensitive comparison of the computed digest
against the declared hex hash. -/
def verifySpec (content expectedHex : String) : Bool :=
  hexEqCaseInsensitive (calculateSHA256 content) expectedHex

/-- Code-side verification: the exact string comparison `downloadFile`
performs at `src/cli.ts:167` (`actualSHA256 !== manifestFile.sha256`,
here in its positive form). -/
def hashMatches (content declared : String) : Bool :=
  calculateSHA256 content == declared

/-- Is the character a lowercase hex digit (`0`–`9` or `a`–`f`). -/
def isLowerHexChar (c : Char) : Bool :=
  (48 ≤ c.toNat && c.toNat ≤ 57) || (97 ≤ c.toNat && c.toNat ≤ 102)

/-- Is the character an uppercase hex letter (`A`–`F`). -/
def isUpperHexLetter (c : Char) : Bool := 65 ≤ c.toNat && c.toNat ≤ 70

/-! ## Concrete test fixtures used by counterexamples and witnesses -/

/-- A manifest whose version is the empty string (a falsy value for
`json.version || null`). -/
def emptyVersionManifest : Manifest :=
  { name := "oh-my-antigravity", version := "", releaseDate := "d", repository := "r",
    files := [{ path := "a.md", sha256 := "h", size := 1 }] }

/-- First-run environment against `emptyVersionManifest`: nothing installed. -/
def c2Env1 : UpdateEnv :=
  { manifestRes := .response 200 (some emptyVersionManifest),
    fileRes := fun _ => .response 404 [], marker := .absent, fs := fun _ => none }

/-- Second-run environment: the marker and filesystem left by the first run,
with the remote manifest unchanged. -/
def c2Env2 : UpdateEnv :=
  { c2Env1 with marker := (update "/w" c2Env1).marker, fs := (update "/w" c2Env1).fs }

/-- An already-up-to-date manifest/marker pair. -/
def c2wM : Manifest :=
  { name := "n", version := "1.0", releaseDate := "d", repository := "r", files := [] }

/-- Environment whose stored version already equals `c2wM`'s version. -/
def c2wEnv : UpdateEnv :=
  { manifestRes := .response 200 (some c2wM), fileRes := fun _ => .response 404 [],
    marker := .parsed (some "1.0"), fs := fun _ => none }

/-- A two-file manifest for the forward-progress scenario. -/
def c3M : Manifest :=
  { name := "n", version := "2.0", releaseDate := "d", repository := "r",
    files := [{ path := "a.md", sha256 := "h1", size := 1 },
              { path := "b.md", sha256 := "h2", size := 1 }] }

/-- Environment in which every file fetch returns HTTP 404. -/
def c3Env : UpdateEnv :=
  { manifestRes := .response 200 (some c3M), fileRes := fun _ => .response 404 [],
    marker := .absent, fs := fun _ => none }

/-- A manifest body missing its `files` (and several other) fields. -/
def c4Body : RawManifest :=
  { name := some "oh-my-antigravity", version := some "9.9.9",
    releaseDate := none, repository := none, files := none }

/-- A one-file manifest for the network-rejection scenario. -/
def c5M : Manifest :=
  { name := "n", version := "3.0", releaseDate := "d", repository := "r",
    files := [{ path := "a.md", sha256 := "h", size := 1 }] }

/-- Environment in which the file fetch promise rejects (network-level
error rather than an HTTP status). -/
def c5Env : UpdateEnv :=
  { manifestRes := .response 200 (some c5M), fileRes := fun _ => .reject,
    marker := .absent, fs := fun _ => none }

/-- The uppercase hex form of `calculateSHA256 ""`. -/
def upperEmptyDigest : String :=
  "E3B0C44298FC1C149AFBF4C8996FB92427AE41E4649B934CA495991B7852B855"

/-- A manifest file whose declared hash matches the text-decoding of the
body bytes `[255]` (which are not valid UTF-8). -/
def c7wFile : ManifestFile :=
  { path := "a.md", sha256 := calculateSHA256 (textDecode [104, 105]), size := 2 }

/-! ## Helper lemmas -/

/-- Successes and failures of an outcome list partition its length. -/
theorem countP_total {α : Type} (p : α → Bool) (l : List α) :
    l.countP p + l.countP (fun a => !p a) = l.length := by
  induction l with
  | nil => simp
  | cons a l ih =>
    by_cases h : p a = true <;> simp [List.countP_cons, h, ← ih] <;> omega

/-- A transfer unit whose fetch returned an HTTP response never rejects: it
resolves to an outcome record carrying the manifest file's path. -/
theorem downloadFile_response_resolves (cwd : String) (s : Nat) (body : List Nat)
    (mf : ManifestFile) (fs : FS) :
    ∃ r fs', downloadFile cwd (.response s body) mf fs = .ok (r, fs') ∧ r.path = mf.path := by
  unfold downloadFile
  by_cases h1 : statusOk s = true
  · by_cases h2 : calculateSHA256 (textDecode body) ≠ mf.sha256
    · exact ⟨{ path := mf.path, success := false, error := some "SHA256 mismatch" }, fs,
        by simp [h1, h2], rfl⟩
    · exact ⟨{ path := mf.path, success := true, error := none },
        writeFile fs (joinPath cwd mf.path) (textDecode body), by simp [h1, h2], rfl⟩
  · simp only [Bool.not_eq_true] at h1
    exact ⟨{ path := mf.path, success := false, error := some ("HTTP " ++ toString s) }, fs,
      by simp [h1], rfl⟩

/-- If no transfer unit's fetch rejects, the whole pass resolves with one
outcome per manifest file, in manifest order. -/
theorem runUnits_no_reject (cwd : String) (fr : String → FetchResult) :
    ∀ (files : List ManifestFile) (fs : FS),
      (∀ mf ∈ files, fr (fileUrl mf) ≠ .reject) →
      ∃ rs fs', runUnits cwd fr files fs = (.ok rs, fs') ∧
        rs.map (fun r => r.path) = files.map (fun mf => mf.path) := by
  intro files
  induction files with
  | nil => exact fun fs _ => ⟨[], fs, rfl, rfl⟩
  | cons mf rest ih =>
    intro fs h
    have hmf := h mf (by simp)
    cases hres : fr (fileUrl mf) with
    | reject => exact absurd hres hmf
    | response s body =>
      obtain ⟨r, fs1, hdl, hpath⟩ := downloadFile_response_resolves cwd s body mf fs
      obtain ⟨rs, fs2, hrun, hpaths⟩ := ih fs1 (fun g hg => h g (by simp [hg]))
      refine ⟨r :: rs, fs2, ?_, ?_⟩
      · simp [runUnits, hres, hdl, hrun]
      · simp [hpath, hpaths]

/-- If some transfer unit's fetch rejects, the whole pass rejects. -/
theorem runUnits_reject (cwd : String) (fr : String → FetchResult) :
    ∀ (files : List ManifestFile) (fs : FS),
      (∃ mf ∈ files, fr (fileUrl mf) = .reject) →
      ∃ e fs', runUnits cwd fr files fs = (.error e, fs') := by
  intro files
  induction files with
  | nil => rintro fs ⟨mf, hm, _⟩; exact absurd hm (List.not_mem_nil mf)
  | cons g rest ih =>
    rintro fs ⟨mf, hm, hrej⟩
    by_cases hg : fr (fileUrl g) = .reject
    · exact ⟨.networkFailure, fs, by simp [runUnits, hg, downloadFile]⟩
    · cases hres : fr (fileUrl g) with
      | reject => exact absurd hres hg
      | response s body =>
        obtain ⟨r, fs1, hdl, _⟩ := downloadFile_response_resolves cwd s body g fs
        have hmem : mf ∈ rest := by
          rcases List.mem_cons.mp hm with h | h
          · exact absurd (h ▸ hrej) hg
          · exact h
        obtain ⟨e, fs2, hrun⟩ := ih fs1 ⟨mf, hmem, hrej⟩
        exact ⟨e, fs2, by simp [runUnits, hres, hdl, hrun]⟩

/-- Unfolding of `update` once the manifest response is known to be an ok
status with a parseable body. -/
theorem update_response (cwd : String) (env : UpdateEnv) (m : Manifest) (s : Nat)
    (hm : env.manifestRes = .response s (some m)) (hs : statusOk s = true) :
    update cwd env =
      if versionEq (getLocalVersion env.marker) m.version then
        { status := .upToDate, outcomes := [], marker := env.marker, fs := env.fs }
      else
        match runUnits cwd env.fileRes m.files env.fs with
        | (.error _, fs') => { status := .failed, outcomes := [], marker := env.marker, fs := fs' }
        | (.ok rs, fs') =>
          { status := .completed, outcomes := rs, marker := saveLocalVersion m.version, fs := fs' } := by
  unfold update
  rw [hm]
  simp [fetchManifestStep, hs]

/-! ## Claim C1: hash mismatch is recorded and nothing is written -/

/-- C1: for every manifest file whose retrieved content's digest does not
equal the declared hash, the transfer unit resolves to an outcome with
`success = false` and the `SHA256 mismatch` failure reason, and the
filesystem is returned unchanged — no write to the target path occurs. -/
theorem c1_hash_mismatch_no_write (cwd : String) (mf : ManifestFile) (status : Nat)
    (body : List Nat) (fs : FS) (hok : statusOk status = true)
    (hmm : calculateSHA256 (textDecode body) ≠ mf.sha256) :
    downloadFile cwd (.response status body) mf fs =
      .ok ({ path := mf.path, success := false, error := some "SHA256 mismatch" }, fs) := by
  unfold downloadFile
  simp [hok, hmm]

/-- C1 witness: a concrete unit whose content hashes to something other
than the declared hash `"deadbeef"` fails with `SHA256 mismatch` and
leaves the (empty) filesystem untouched. -/
theorem c1_hash_mismatch_no_write_exec :
    downloadFile "/w" (.response 200 [104, 105]) ⟨"a.md", "deadbeef", 2⟩ (fun _ => none) =
      .ok ({ path := "a.md", success := false, error := some "SHA256 mismatch" }, fun _ => none) :=
  c1_hash_mismatch_no_write "/w" ⟨"a.md", "deadbeef", 2⟩ 200 [104, 105] (fun _ => none)
    (by decide) (by decide)

/-! ## Claim C4: the manifest fetch does not validate the body's shape -/

/-- C4 counterexample: a parsed manifest body missing its `files` field is
returned as-is by `fetchRemoteManifest` — a partially populated manifest,
not a malformed-manifest error, refuting the claim that any body missing
`version` or `files` makes the fetch fail. -/
theorem c4_missing_fields_returned :
    fetchRemoteManifest (.response 200 (some c4Body)) = .ok c4Body ∧
    c4Body.files = none ∧ c4Body.releaseDate = none :=
  ⟨rfl, rfl, rfl⟩

/-- C4 amended: `fetchRemoteManifest` fails only when the fetch promise
rejects, when the HTTP status is not ok, or when the body is not parseable
JSON; any parseable body is returned unvalidated (the `as Manifest` cast),
with whatever fields it happens to be missing. -/
theorem c4_fetch_no_validation (r : ManifestResponse RawManifest) :
    fetchRemoteManifest r =
      match r with
      | .reject => .error .networkFailure
      | .response s none =>
        if statusOk s then .error .manifestJsonError else .error .manifestHttpError
      | .response s (some raw) => if statusOk s then .ok raw else .error .manifestHttpError := by
  cases r with
  | reject => rfl
  | response s body =>
    cases body <;> by_cases h : statusOk s <;>
      simp [fetchRemoteManifest, fetchManifestStep, h]

/-! ## Claim C8: reading the version marker never propagates an error -/

/-- C8 counterexample: a marker file holding `{"version": ""}` is neither
absent, unreadable, corrupt, nor lacking its `version` field, yet
`getLocalVersion` returns absence instead of the stored string `""`
(`json.version || null` treats the falsy empty string as `null`). -/
theorem c8_empty_version_reads_none :
    getLocalVersion (.parsed (some "")) = none ∧
    getLocalVersion (.parsed (some "")) ≠ some "" :=
  ⟨rfl, by decide⟩

/-- C8 amended: `getLocalVersion` never propagates an error — absence,
unreadability, invalid JSON and a missing `version` field all read as
absence — and a parsed marker yields the stored version string when that
string is truthy (non-empty); a stored empty string also reads as absence. -/
theorem c8_read_never_fails (v : String) :
    getLocalVersion .absent = none ∧ getLocalVersion .unreadable = none ∧
    getLocalVersion .invalidJson = none ∧ getLocalVersion (.parsed none) = none ∧
    (v ≠ "" → getLocalVersion (.parsed (some v)) = some v) ∧
    getLocalVersion (.parsed (some "")) = none := by
  refine ⟨rfl, rfl, rfl, rfl, ?_, rfl⟩
  intro hv
  simp [getLocalVersion, hv]

/-- C8 witness: a non-empty stored version is returned; an absent marker
reads as absence. -/
theorem c8_read_never_fails_exec :
    getLocalVersion (.parsed (some "1.2.0")) = some "1.2.0" ∧
    getLocalVersion .absent = none :=
  ⟨(c8_read_never_fails "1.2.0").2.2.2.2.1 (by decide), (c8_read_never_fails "1.2.0").1⟩

/-! ## Claim C10: version-marker round trip -/

/-- C10: reading the marker immediately after `saveLocalVersion v` returns
`v` for every non-empty version string, while saving the empty string reads
back as absence, so the round trip holds exactly under the non-empty
precondition. -/
theorem c10_version_roundtrip (v : String) :
    (v ≠ "" → getLocalVersion (saveLocalVersion v) = some v) ∧
    getLocalVersion (saveLocalVersion "") = none := by
  constructor
  · intro hv
    simp [saveLocalVersion, getLocalVersion, hv]
  · rfl

/-- C10 witness: the round trip at the concrete version `"1.2.0"` and the
empty-string exception. -/
theorem c10_version_roundtrip_exec :
    getLocalVersion (saveLocalVersion "1.2.0") = some "1.2.0" ∧
    getLocalVersion (saveLocalVersion "") = none :=
  ⟨(c10_version_roundtrip "1.2.0").1 (by decide), (c10_version_roundtrip "1.2.0").2⟩

/-! ## Claim C2: the up-to-date short-circuit and second-run idempotence -/

/-- C2 counterexample: with a manifest whose version is the empty string,
a first pass completes and stores `{"version": ""}` — the stored version
then equals the manifest version under exact string equality — yet an
immediately following second pass is not a no-op: it runs the transfer
units again and produces a non-empty outcome sequence, because
`getLocalVersion` maps the falsy stored `""` back to `null`. -/
theorem c2_empty_version_not_idempotent :
    (update "/w" c2Env1).status = .completed ∧
    (update "/w" c2Env1).marker = .parsed (some "") ∧
    (update "/w" c2Env2).status ≠ .upToDate ∧
    (update "/w" c2Env2).outcomes ≠ [] := by
  refine ⟨?_, ?_, ?_, ?_⟩ <;> decide

/-- C2 amended: when the version read from the marker equals the manifest
version under strict equality the pass is a no-op — up-to-date status,
empty outcomes, marker and filesystem unchanged, and the result does not
depend on the file fetcher at all (no file-content fetch occurs); and a
second run immediately after a completed first run against an unchanged
manifest is such a no-op provided the manifest's version is non-empty (a
stored empty version string reads back as absent and defeats the
short-circuit). -/
theorem c2_short_circuit_idempotent (cwd : String) (env : UpdateEnv) (m : Manifest) (s : Nat)
    (hm : env.manifestRes = .response s (some m)) (hs : statusOk s = true) :
    (versionEq (getLocalVersion env.marker) m.version = true →
      update cwd env = { status := .upToDate, outcomes := [], marker := env.marker, fs := env.fs } ∧
      ∀ fr : String → FetchResult, update cwd { env with fileRes := fr } = update cwd env) ∧
    (m.version ≠ "" → (update cwd env).status = .completed →
      ∀ env2 : UpdateEnv, env2.manifestRes = env.manifestRes →
        env2.marker = (update cwd env).marker →
        (update cwd env2).status = .upToDate ∧ (update cwd env2).outcomes = [] ∧
        (update cwd env2).marker = env2.marker ∧ (update cwd env2).fs = env2.fs) := by
  constructor
  · intro heq
    have h1 : update cwd env =
        { status := .upToDate, outcomes := [], marker := env.marker, fs := env.fs } := by
      rw [update_response cwd env m s hm hs, heq]
      rfl
    refine ⟨h1, ?_⟩
    intro fr
    have h2 : update cwd { env with fileRes := fr } =
        { status := .upToDate, outcomes := [], marker := env.marker, fs := env.fs } := by
      rw [update_response cwd { env with fileRes := fr } m s hm hs, heq]
      rfl
    rw [h1, h2]
  · intro hv hcomp env2 hm2 hmk2
    rw [update_response cwd env m s hm hs] at hcomp hmk2
    cases heq : versionEq (getLocalVersion env.marker) m.version with
    | true => rw [heq] at hcomp; simp at hcomp
    | false =>
      rw [heq] at hcomp hmk2
      cases hrun : runUnits cwd env.fileRes m.files env.fs with
      | mk r fs' =>
        rw [hrun] at hcomp hmk2
        cases r with
        | error e => simp at hcomp
        | ok rs =>
          simp only [saveLocalVersion] at hmk2
          have hloc : getLocalVersion env2.marker = some m.version := by
            simp at hmk2
            rw [hmk2]
            simp [getLocalVersion, hv]
          have hveq : versionEq (getLocalVersion env2.marker) m.version = true := by
            rw [hloc]
            simp [versionEq]
          have h2 : update cwd env2 =
              { status := .upToDate, outcomes := [], marker := env2.marker, fs := env2.fs } := by
            rw [update_response cwd env2 m s (by rw [hm2, hm]) hs, hveq]
            rfl
          rw [h2]
          exact ⟨rfl, rfl, rfl, rfl⟩

/-- C2 witness: a concrete environment whose stored version `"1.0"` equals
the manifest version is a no-op pass. -/
theorem c2_short_circuit_idempotent_exec :
    update "/w" c2wEnv =
      { status := .upToDate, outcomes := [], marker := c2wEnv.marker, fs := c2wEnv.fs } :=
  ((c2_short_circuit_idempotent "/w" c2wEnv c2wM 200 rfl (by decide)).1 (by decide)).1

/-! ## Claim C3: forward progress under partial failure -/

/-- C3: every pass that reaches the transfer step and whose units all
complete (no unit's promise rejects) ends with the version marker written
to the manifest's version regardless of how many units failed, and with
exactly one outcome per manifest file, so successes plus failures equal
the manifest's file count. -/
theorem c3_forward_progress (cwd : String) (env : UpdateEnv) (m : Manifest) (s : Nat)
    (hm : env.manifestRes = .response s (some m)) (hs : statusOk s = true)
    (hneq : versionEq (getLocalVersion env.marker) m.version = false)
    (hnr : ∀ mf ∈ m.files, env.fileRes (fileUrl mf) ≠ .reject) :
    (update cwd env).status = .completed ∧
    (update cwd env).marker = .parsed (some m.version) ∧
    (update cwd env).outcomes.map (fun r => r.path) = m.files.map (fun mf => mf.path) ∧
    (update cwd env).outcomes.countP (fun r => r.success) +
      (update cwd env).outcomes.countP (fun r => !r.success) = m.files.length := by
  obtain ⟨rs, fs', hrun, hpaths⟩ := runUnits_no_reject cwd env.fileRes m.files env.fs hnr
  have hupd : update cwd env =
      { status := .completed, outcomes := rs, marker := saveLocalVersion m.version, fs := fs' } := by
    rw [update_response cwd env m s hm hs, hneq]
    simp [hrun]
  rw [hupd]
  have hlen : rs.length = m.files.length := by
    have := congrArg List.length hpaths
    simpa using this
  exact ⟨rfl, rfl, hpaths, by rw [countP_total]; exact hlen⟩

/-- C3 witness: both files of a two-file manifest fail with HTTP 404, yet
the pass completes, the marker advances to `"2.0"`, and the outcome counts
sum to the file count 2. -/
theorem c3_forward_progress_exec :
    (update "/w" c3Env).status = .completed ∧
    (update "/w" c3Env).marker = .parsed (some "2.0") ∧
    (update "/w" c3Env).outcomes.map (fun r => r.path) = ["a.md", "b.md"] ∧
    (update "/w" c3Env).outcomes.countP (fun r => r.success) +
      (update "/w" c3Env).outcomes.countP (fun r => !r.success) = 2 :=
  c3_forward_progress "/w" c3Env c3M 200 rfl (by decide) (by decide)
    (by intro mf _ h; exact FetchResult.noConfusion h)

/-! ## Claim C5: network-level errors versus per-file failure outcomes -/

/-- C5 counterexample: a network-level fetch error does raise out of the
transfer unit — `downloadFile` has no try/catch, so a rejected fetch
promise rejects the unit — and with one rejecting file the whole pass is
aborted through the top-level catch: status is `failed`, no outcome report
is produced, and the version marker is left unchanged instead of being
updated. -/
theorem c5_reject_aborts_pass :
    downloadFile "/w" .reject { path := "a.md", sha256 := "h", size := 1 } (fun _ => none) =
      .error .networkFailure ∧
    (update "/w" c5Env).status = .failed ∧
    (update "/w" c5Env).marker = .absent ∧
    (update "/w" c5Env).outcomes = [] := by
  refine ⟨rfl, ?_, ?_, ?_⟩ <;> decide

/-- C5 amended: only a non-success HTTP status is converted into the
per-file failure outcome channel (an `HTTP <status>` outcome, unit
resolves, filesystem untouched); a network-level fetch rejection instead
propagates out of the unit, and a pass containing any rejecting unit ends
`failed` with the version marker not updated. -/
theorem c5_http_error_vs_reject (cwd : String) (mf : ManifestFile) (status : Nat)
    (body : List Nat) (fs : FS) (hnok : statusOk status = false) :
    downloadFile cwd (.response status body) mf fs =
      .ok ({ path := mf.path, success := false, error := some ("HTTP " ++ toString status) }, fs) ∧
    downloadFile cwd .reject mf fs = .error .networkFailure ∧
    ∀ (env : UpdateEnv) (m : Manifest) (s : Nat),
      env.manifestRes = .response s (some m) → statusOk s = true →
      versionEq (getLocalVersion env.marker) m.version = false →
      (∃ f ∈ m.files, env.fileRes (fileUrl f) = .reject) →
      (update cwd env).status = .failed ∧ (update cwd env).marker = env.marker := by
  refine ⟨?_, rfl, ?_⟩
  · unfold downloadFile
    simp [hnok]
  · intro env m s hm hs hneq hex
    obtain ⟨e, fs', hrun⟩ := runUnits_reject cwd env.fileRes m.files env.fs hex
    have hupd : update cwd env =
        { status := .failed, outcomes := [], marker := env.marker, fs := fs' } := by
      rw [update_response cwd env m s hm hs, hneq]
      simp [hrun]
    rw [hupd]
    exact ⟨rfl, rfl⟩

/-- C5 witness: the HTTP 404 failure outcome for a concrete unit, and the
aborted pass for the concrete rejecting environment. -/
theorem c5_http_error_vs_reject_exec :
    downloadFile "/w" (.response 404 []) { path := "a.md", sha256 := "h", size := 1 }
        (fun _ => none) =
      .ok ({ path := "a.md", success := false, error := some "HTTP 404" }, fun _ => none) ∧
    (update "/w" c5Env).status = .failed ∧ (update "/w" c5Env).marker = .absent :=
  ⟨(c5_http_error_vs_reject "/w" { path := "a.md", sha256 := "h", size := 1 } 404 []
      (fun _ => none) (by decide)).1,
   ((c5_http_error_vs_reject "/w" { path := "a.md", sha256 := "h", size := 1 } 404 []
      (fun _ => none) (by decide)).2.2 c5Env c5M 200 rfl (by decide) (by decide)
      ⟨{ path := "a.md", sha256 := "h", size := 1 }, by decide, rfl⟩).1,
   ((c5_http_error_vs_reject "/w" { path := "a.md", sha256 := "h", size := 1 } 404 []
      (fun _ => none) (by decide)).2.2 c5Env c5M 200 rfl (by decide) (by decide)
      ⟨{ path := "a.md", sha256 := "h", size := 1 }, by decide, rfl⟩).2⟩

/-! ## Helper lemmas for the digest alphabet and the ASCII round trip -/

/-- Every hex digit the digest printer emits is a lowercase hex character. -/
theorem hexDigitChar_lower : ∀ n, n < 16 → isLowerHexChar (hexDigitChar n) = true := by
  decide

/-- Every character of a computed digest is a lowercase hex character. -/
theorem calculateSHA256_lower (content : String) :
    ∀ c ∈ (calculateSHA256 content).data, isLowerHexChar c = true := by
  intro c hc
  have hc' : c ∈ ((sha256Words (utf8Encode content)).map wordHexChars).flatten := hc
  obtain ⟨l, hl, hcl⟩ := List.mem_flatten.mp hc'
  obtain ⟨w, _, rfl⟩ := List.mem_map.mp hl
  obtain ⟨i, _, rfl⟩ := List.mem_map.mp hcl
  exact hexDigitChar_lower _ (Nat.mod_lt _ (by omega))

/-- Packing a valid scalar value into a character preserves its value. -/
theorem toNat_ofNat_valid (n : Nat) (h : n.isValidChar) : (Char.ofNat n).toNat = n := by
  rw [Char.ofNat, dif_pos h]
  rfl

/-- A byte sequence of ASCII bytes carries no byte-order mark. -/
theorem stripBOM_ascii (l : List Nat) (h : ∀ x ∈ l, x < 128) : stripBOM l = l := by
  unfold stripBOM
  split
  · next heq =>
    exfalso
    have h239 : (239 : Nat) ∈ l.take 3 := by rw [heq]; simp
    have := h 239 (List.take_subset 3 l h239)
    omega
  · rfl

/-- An ASCII byte decodes to itself and consumes only itself. -/
theorem decodeOne_ascii (b : Nat) (rest : List Nat) (hb : b < 128) :
    decodeOne b rest = (b, rest) := by
  simp [decodeOne, hb]

/-- Decoding then re-encoding an ASCII byte sequence is the identity. -/
theorem utf8DecodeAux_ascii_encode (fuel : Nat) :
    ∀ l : List Nat, l.length ≤ fuel → (∀ x ∈ l, x < 128) →
      ((utf8DecodeAux fuel l).map utf8EncodeChar).flatten = l := by
  induction fuel with
  | zero =>
    intro l hf _
    have hnil : l = [] := List.eq_nil_of_length_eq_zero (Nat.le_zero.mp hf)
    subst hnil
    simp [utf8DecodeAux]
  | succ n ih =>
    intro l hf h
    cases l with
    | nil => simp [utf8DecodeAux]
    | cons b rest =>
      have hb : b < 128 := h b (by simp)
      have hvalid : Nat.isValidChar b := Or.inl (by omega)
      have htn : (Char.ofNat b).toNat = b := toNat_ofNat_valid b hvalid
      have henc : utf8EncodeChar (Char.ofNat b) = [b] := by
        simp [utf8EncodeChar, htn, hb]
      simp only [utf8DecodeAux, decodeOne_ascii b rest hb]
      rw [List.map_cons, List.flatten_cons, henc]
      have hrest := ih rest (by simp at hf; omega) (fun x hx => h x (List.mem_cons_of_mem _ hx))
      rw [hrest]
      rfl

/-! ## Claim C6: hash verification is exact, not case-insensitive -/

/-- C6 counterexample: with the declared hash equal to the uppercase form
of the computed digest of the empty content, the spec-side case-insensitive
`verify` succeeds but the code's comparison fails, and the transfer unit
reports `SHA256 mismatch` — refuting the claim that verification succeeds
on the uppercase form of the computed lowercase digest. -/
theorem c6_uppercase_hash_rejected :
    verifySpec "" upperEmptyDigest = true ∧
    hashMatches "" upperEmptyDigest = false ∧
    downloadFile "/w" (.response 200 []) { path := "a.md", sha256 := upperEmptyDigest, size := 0 }
        (fun _ => none) =
      .ok ({ path := "a.md", success := false, error := some "SHA256 mismatch" }, fun _ => none) :=
  ⟨by decide, by decide, rfl⟩

/-- C6 amended: the code's verification is an exact, case-sensitive string
comparison of the computed digest against the declared hash; the computed
digest consists only of lowercase hex characters, so a declared hash
containing any uppercase hex letter never verifies. -/
theorem c6_exact_comparison (content e : String) :
    (hashMatches content e = true ↔ calculateSHA256 content = e) ∧
    (∀ c ∈ (calculateSHA256 content).data, isLowerHexChar c = true) ∧
    (e.data.any isUpperHexLetter = true → hashMatches content e = false) := by
  refine ⟨by simp [hashMatches], calculateSHA256_lower content, ?_⟩
  intro hup
  cases h : hashMatches content e with
  | false => rfl
  | true =>
    exfalso
    have heq : calculateSHA256 content = e := by
      simpa [hashMatches] using h
    obtain ⟨c, hc, hcu⟩ := List.any_eq_true.mp hup
    have hlow : isLowerHexChar c = true := by
      apply calculateSHA256_lower content
      rw [heq]
      exact hc
    simp [isLowerHexChar, isUpperHexLetter] at hlow hcu
    omega

/-- C6 witness: the exact-comparison characterization and the uppercase
rejection at the concrete uppercase digest of the empty content. -/
theorem c6_exact_comparison_exec :
    (hashMatches "" upperEmptyDigest = true ↔ calculateSHA256 "" = upperEmptyDigest) ∧
    hashMatches "" upperEmptyDigest = false :=
  ⟨(c6_exact_comparison "" upperEmptyDigest).1,
   (c6_exact_comparison "" upperEmptyDigest).2.2 (by decide)⟩

/-! ## Claim C7: what is digested and written versus the raw body bytes -/

/-- C7 counterexample: for the body bytes `[255]` (not valid UTF-8) the
unit verifies and installs the text-decoded content: the declared hash that
makes verification succeed is the digest of the decoded text, not of the
raw body bytes — the raw-byte digest differs — and the installed bytes
(the UTF-8 encoding of the stored text, the replacement character) differ
from the raw body bytes. -/
theorem c7_decode_not_raw_bytes :
    downloadFile "/w" (.response 200 [255])
        { path := "a.md", sha256 := calculateSHA256 (textDecode [255]), size := 1 }
        (fun _ => none) =
      .ok ({ path := "a.md", success := true, error := none },
        writeFile (fun _ => none) (joinPath "/w" "a.md") (textDecode [255])) ∧
    utf8Encode (textDecode [255]) ≠ [255] ∧
    calculateSHA256 (textDecode [255]) ≠ sha256Hex [255] :=
  ⟨rfl, by decide, by decide⟩

/-- C7 amended: the digest is computed over, and on success the bytes
written are, the UTF-8 re-encoding of the text-decoding of the body (the
unit verifies exactly what it writes); this coincides with the raw body
bytes whenever the body is ASCII, but not for arbitrary byte sequences. -/
theorem c7_digest_and_write_decoded (cwd : String) (mf : ManifestFile) (status : Nat)
    (body : List Nat) (fs : FS) (hok : statusOk status = true)
    (hmatch : calculateSHA256 (textDecode body) = mf.sha256) :
    downloadFile cwd (.response status body) mf fs =
      .ok ({ path := mf.path, success := true, error := none },
        writeFile fs (joinPath cwd mf.path) (textDecode body)) ∧
    (body.all (fun x => decide (x < 128)) = true → utf8Encode (textDecode body) = body) := by
  constructor
  · unfold downloadFile
    simp [hok, hmatch]
  · intro hascii
    have h' : ∀ x ∈ body, x < 128 := by
      intro x hx
      exact of_decide_eq_true (List.all_eq_true.mp hascii x hx)
    show ((utf8DecodeBytes (stripBOM body)).map utf8EncodeChar).flatten = body
    rw [stripBOM_ascii body h']
    exact utf8DecodeAux_ascii_encode body.length body le_rfl h'

/-- C7 witness: a concrete ASCII body is verified against its own decoded
digest, written as-is, and re-encodes to exactly the raw body bytes. -/
theorem c7_digest_and_write_decoded_exec :
    downloadFile "/w" (.response 200 [104, 105]) c7wFile (fun _ => none) =
      .ok ({ path := "a.md", success := true, error := none },
        writeFile (fun _ => none) (joinPath "/w" "a.md") (textDecode [104, 105])) ∧
    utf8Encode (textDecode [104, 105]) = [104, 105] :=
  ⟨(c7_digest_and_write_decoded "/w" c7wFile 200 [104, 105] (fun _ => none) (by decide) rfl).1,
   (c7_digest_and_write_decoded "/w" c7wFile 200 [104, 105] (fun _ => none) (by decide) rfl).2
     (by decide)⟩

/-- C4 witness: the characterization at concrete inputs — a server error
status fails, and an ok status returns the unvalidated body. -/
theorem c4_fetch_no_validation_exec :
    fetchRemoteManifest (.response 500 (some c4Body)) = .error .manifestHttpError ∧
    fetchRemoteManifest (.response 200 none) = .error .manifestJsonError :=
  ⟨by simpa [statusOk] using c4_fetch_no_validation (.response 500 (some c4Body)),
   by simpa [statusOk] using c4_fetch_no_validation (.response 200 none)⟩
